import Mathlib

/-!
Verification development for the gcp-photo-storage-functions repository.

The repository is a set of Google Cloud Functions written in Python:

* `functions_cloud_event.py` — storage-triggered handlers
  `process_image_for_labels` (object finalize) and `delete_image_metadata`
  (object delete);
* `functions_http.py` — HTTP handlers `upload_image`, `delete_image`,
  `get_images_metadata`, `get_image_metadata`, `ocr_image`;
* `main.py` — an older revision with variants of the same handlers;
* `config.py` — the mime allow-list and client singletons;
* `utils.py` — credential and OCR helpers.

External services (Firestore, Cloud Storage, the Vision API, Firebase token
verification) are modelled as oracle parameters.  Python string operations
used by the handlers are modelled by structurally recursive Lean functions
so that concrete runs evaluate by `decide`.
-/

/-- Models the Python method `str.endswith`: `List.isSuffixOf` on the
underlying character lists. -/
def pyEndsWith (s suffix : String) : Bool :=
  List.isSuffixOf suffix.data s.data

/-- Models the Python method `str.startswith`. -/
def pyStartsWith (s pre : String) : Bool :=
  List.isPrefixOf pre.data s.data

/-- Models the Python method `str.replace` for a single-character pattern
(every occurrence of the character is replaced by the string `rep`).  Both
replace calls in the sources use a single-character pattern (`"/"` and
`"Z"`). -/
def pyReplaceChar (s : String) (pat : Char) (rep : String) : String :=
  ⟨s.data.foldr (fun c acc => if c = pat then rep.data ++ acc else c :: acc) []⟩

/-- Python truthiness of an optional string (`if s:`): `None` and the empty
string are falsy. -/
def pyTruthy : Option String → Bool
  | none => false
  | some s => !s.data.isEmpty

/-- Helper for `pyAfterBearer`: characters before the first occurrence of
the pattern. -/
def takeUntilPat (pat : List Char) : List Char → List Char
  | [] => []
  | c :: cs => if List.isPrefixOf pat (c :: cs) then [] else c :: takeUntilPat pat cs

/-- Models the Python expression `auth_header.split("Bearer ")[1]` under the
guard that `auth_header` starts with `"Bearer "`: the segment after that
7-character lead, up to the next occurrence of `"Bearer "`. -/
def pyAfterBearer (h : String) : String :=
  ⟨takeUntilPat "Bearer ".data (h.data.drop 7)⟩

/-- Digits of a decimal numeral to a natural number; `none` when the list is
empty or contains a non-digit character. -/
def natOfDigits (l : List Char) : Option Nat :=
  match l with
  | [] => none
  | _ =>
    l.foldl
      (fun acc c =>
        match acc with
        | none => none
        | some a => if c.isDigit then some (10 * a + (c.toNat - 48)) else none)
      (some 0)

/-- Models the Python builtin `int(...)` applied to the size string of a
storage event: an optional minus sign followed by decimal digits.  Returns
`none` where Python raises `ValueError`.  (Python also accepts surrounding
whitespace and underscores; no claim depends on those forms.) -/
def pyInt? (s : String) : Option Int :=
  match s.data with
  | '-' :: ds => (natOfDigits ds).map (fun n => -(n : Int))
  | ds => (natOfDigits ds).map (fun n => (n : Int))

/-- Label annotation returned by the Vision API label-detection call.  The
floating point `score` and `topicality` fields are modelled as rationals:
the handler only compares them. -/
structure LabelAnnotation where
  description : String
  score : ℚ
  topicality : ℚ
deriving DecidableEq, Repr

/-- The comparison used by the handler sort
`sorted(labels, key=lambda label: (-label.topicality, -label.score))`:
`a` may be placed before `b` when the Python key tuple of `a` is less than
or equal to that of `b`. -/
def labelLe (a b : LabelAnnotation) : Bool :=
  decide (b.topicality < a.topicality) ||
    (decide (a.topicality = b.topicality) && decide (b.score ≤ a.score))

/-- The labels the finalize handler persists: source lines 67-81 of
`functions_cloud_event.py` (and 253-267 of `main.py`).  When the annotation
list is non-empty it is stable-sorted by descending topicality then
descending score, and the first four entries are kept; Python `sorted` is a
stable merge sort, modelled by `List.mergeSort`. -/
def computeLabelsData (labels : List LabelAnnotation) : List LabelAnnotation :=
  if labels.isEmpty then [] else (labels.mergeSort labelLe).take 4

theorem labelLe_trans : ∀ a b c : LabelAnnotation,
    labelLe a b → labelLe b c → labelLe a c := by
  intro a b c hab hbc
  simp only [labelLe, Bool.or_eq_true, Bool.and_eq_true, decide_eq_true_eq] at *
  rcases hab with h1 | ⟨h1, h2⟩ <;> rcases hbc with h3 | ⟨h3, h4⟩
  · exact Or.inl (lt_trans h3 h1)
  · exact Or.inl (h3 ▸ h1)
  · exact Or.inl (h1 ▸ h3)
  · exact Or.inr ⟨h1.trans h3, le_trans h4 h2⟩

theorem labelLe_total : ∀ a b : LabelAnnotation, labelLe a b || labelLe b a := by
  intro a b
  simp only [labelLe, Bool.or_eq_true, Bool.and_eq_true, decide_eq_true_eq]
  rcases lt_trichotomy a.topicality b.topicality with h | h | h
  · exact Or.inr (Or.inl h)
  · rcases le_total a.score b.score with hs | hs
    · exact Or.inr (Or.inr ⟨h.symm, hs⟩)
    · exact Or.inl (Or.inr ⟨h, hs⟩)
  · exact Or.inl (Or.inl h)

/-- Stability of the handler sort: for every fixed key, the sorted list
restricted to that key is the input list restricted to that key. -/
theorem filter_key_mergeSort (l : List LabelAnnotation) (t s : ℚ) :
    (l.mergeSort labelLe).filter
        (fun a => decide (a.topicality = t) && decide (a.score = s))
      = l.filter (fun a => decide (a.topicality = t) && decide (a.score = s)) := by
  set p : LabelAnnotation → Bool :=
    fun a => decide (a.topicality = t) && decide (a.score = s) with hp
  have hpair : (l.filter p).Pairwise (fun a b => labelLe a b) := by
    apply List.pairwise_of_forall_mem_list
    intro a ha b hb
    have ha' := (List.mem_filter.mp ha).2
    have hb' := (List.mem_filter.mp hb).2
    rw [hp] at ha' hb'
    simp only [Bool.and_eq_true, decide_eq_true_eq] at ha' hb'
    simp only [labelLe, Bool.or_eq_true, Bool.and_eq_true, decide_eq_true_eq]
    exact Or.inr ⟨by rw [ha'.1, hb'.1], by rw [ha'.2, hb'.2]⟩
  have hsub : List.Sublist (l.filter p) (l.mergeSort labelLe) :=
    List.sublist_mergeSort labelLe_trans labelLe_total hpair (List.filter_sublist l)
  have hself : (l.filter p).filter p = l.filter p := by
    rw [List.filter_eq_self]
    intro a ha
    exact (List.mem_filter.mp ha).2
  have hsub2 : List.Sublist (l.filter p) ((l.mergeSort labelLe).filter p) := by
    have := hsub.filter p
    rwa [hself] at this
  have hperm : List.Perm ((l.mergeSort labelLe).filter p) (l.filter p) :=
    (l.mergeSort_perm labelLe).filter p
  exact (hsub2.eq_of_length hperm.length_eq.symm).symm

/-- Claim C4: the persisted labels sequence has length at most 4, is sorted
by descending topicality with ties broken by descending score, and labels
equal in both keys keep their relative input order (stability, stated as:
for every key, the persisted labels with that key form a sublist of the
input labels with that key). -/
theorem C4_theorem (l : List LabelAnnotation) :
    (computeLabelsData l).length ≤ 4
    ∧ (computeLabelsData l).Pairwise
        (fun a b => b.topicality < a.topicality
          ∨ (a.topicality = b.topicality ∧ b.score ≤ a.score))
    ∧ ∀ t s : ℚ,
        List.Sublist
          ((computeLabelsData l).filter
            (fun a => decide (a.topicality = t) && decide (a.score = s)))
          (l.filter (fun a => decide (a.topicality = t) && decide (a.score = s))) := by
  refine ⟨?_, ?_, ?_⟩
  · unfold computeLabelsData
    split
    · simp
    · rw [List.length_take]
      exact min_le_left _ _
  · unfold computeLabelsData
    split
    · simp
    · have hsorted : (l.mergeSort labelLe).Pairwise (fun a b => labelLe a b) :=
        List.sorted_mergeSort labelLe_trans labelLe_total l
      have htake : ((l.mergeSort labelLe).take 4).Pairwise (fun a b => labelLe a b) :=
        hsorted.sublist (List.take_sublist 4 _)
      refine htake.imp ?_
      intro a b hab
      simpa only [labelLe, Bool.or_eq_true, Bool.and_eq_true, decide_eq_true_eq] using hab
  · intro t s
    unfold computeLabelsData
    split
    · simp
    · have h1 : List.Sublist
          (((l.mergeSort labelLe).take 4).filter
            (fun a => decide (a.topicality = t) && decide (a.score = s)))
          ((l.mergeSort labelLe).filter
            (fun a => decide (a.topicality = t) && decide (a.score = s))) :=
        (List.take_sublist 4 _).filter _
      rwa [filter_key_mergeSort l t s] at h1

/-- Abstract token for a parsed `datetime` value; the handlers never inspect
the parsed value, they only store it. -/
structure PyDateTime where
  idx : Nat
deriving DecidableEq, Repr

/-- Firestore field value as used by these handlers. -/
inductive FSValue where
  | str : String → FSValue
  | int : Int → FSValue
  | labelList : List LabelAnnotation → FSValue
  | timestamp : PyDateTime → FSValue
  | serverTimestamp : FSValue
  | null : FSValue
deriving DecidableEq, Repr

/-- A Firestore document: a partial map from field names to values. -/
def Doc : Type := String → Option FSValue

/-- Field lookup in a metadata dictionary (the Python dicts built by the
handlers have pairwise distinct keys, so first match equals last write). -/
def lookupField (fields : List (String × FSValue)) (k : String) : Option FSValue :=
  (fields.find? (fun kv => kv.fst == k)).map (fun kv => kv.snd)

/-- Semantics of `doc_ref.set(fields, merge)` applied to an existing
document (absent document behaves as the empty map): with `merge = true`
only the given fields are replaced, with `merge = false` the document
becomes exactly the given fields. -/
def applySet (d : Doc) (fields : List (String × FSValue)) (merge : Bool) : Doc :=
  fun k =>
    match lookupField fields k with
    | some v => some v
    | none => if merge then d k else none

/-- Externally visible side effects issued by a handler run. -/
inductive Effect where
  | setDoc (docId : String) (fields : List (String × FSValue)) (merge : Bool)
  | deleteDoc (docId : String)
  | deleteBlob (bucket path : String)
  | uploadBlob (bucket path : String)
deriving DecidableEq, Repr

/-- Response of a successful Vision label-detection call: the annotation
list and the error message of the response status (the empty string models
an absent error, matching the protobuf default). -/
structure VisionResponse where
  labelAnnotations : List LabelAnnotation
  errorMessage : String

/-- Payload of a Cloud Storage event as read by the handlers
(`data.get(...)` for each field). -/
structure StorageEventData where
  bucket : Option String
  name : Option String
  metageneration : Option String
  timeCreated : Option String
  updated : Option String
  size : Option String

/-- Python string interpolation of the bucket field into the object URI:
interpolating `None` produces the literal text `None`. -/
def bucketToStr : Option String → String
  | none => "None"
  | some b => b

/-- Value stored under the `bucket` key of the metadata dictionary (`None`
becomes a Firestore null). -/
def bucketToVal : Option String → FSValue
  | none => FSValue.null
  | some b => FSValue.str b

/-- The expression `int(size) if size else 0` of the finalize handlers: a
falsy size yields 0; a truthy size that is not an integer literal raises
`ValueError`, which is not caught there. -/
def sizeValue (size : Option String) : Except Unit Int :=
  if pyTruthy size then
    match pyInt? (size.getD "") with
    | none => Except.error ()
    | some n => Except.ok n
  else Except.ok 0

/-- Timestamp fields produced by the shared try block of the finalize
handlers (source lines 116-127 of `functions_cloud_event.py`, 287-299 of
`main.py`): both parses run inside one `try`, so a `ValueError` from the
`timeCreated` parse also skips the `updated` parse, while a `ValueError`
from the `updated` parse leaves the already-assigned `timeCreated` in
place.  `parse` is the oracle for `datetime.datetime.fromisoformat`;
the `Z` to `+00:00` normalization is applied before parsing. -/
def parseTsFields (parse : String → Option PyDateTime) (tc up : Option String) :
    List (String × FSValue) :=
  if pyTruthy tc then
    match parse (pyReplaceChar (tc.getD "") 'Z' "+00:00") with
    | none => []
    | some d1 =>
      if pyTruthy up then
        match parse (pyReplaceChar (up.getD "") 'Z' "+00:00") with
        | none => [("timeCreated", FSValue.timestamp d1)]
        | some d2 => [("timeCreated", FSValue.timestamp d1),
                      ("updated", FSValue.timestamp d2)]
      else [("timeCreated", FSValue.timestamp d1)]
  else
    if pyTruthy up then
      match parse (pyReplaceChar (up.getD "") 'Z' "+00:00") with
      | none => []
      | some d2 => [("updated", FSValue.timestamp d2)]
    else []

/-- The metadata dictionary built by the finalize handler of
`functions_cloud_event.py` (lines 101-127): the literal dictionary, then
`userId` when the recovered owner id is truthy, then the timestamp
fields. -/
def finalizeMetadata (bucket : Option String) (file_name : String) (sizeInt : Int)
    (labels_data : List LabelAnnotation) (visionErr : FSValue)
    (userId : Option String) (tsFields : List (String × FSValue)) :
    List (String × FSValue) :=
  [("bucket", bucketToVal bucket),
   ("fileName", FSValue.str file_name),
   ("imageUri", FSValue.str ("gs://" ++ bucketToStr bucket ++ "/" ++ file_name)),
   ("size", FSValue.int sizeInt),
   ("labels", FSValue.labelList labels_data),
   ("processedTimestamp", FSValue.serverTimestamp),
   ("visionApiError", visionErr)]
  ++ (match userId with
      | none => []
      | some u => if u.data.isEmpty then [] else [("userId", FSValue.str u)])
  ++ tsFields

/-- Owner id recovered from the blob metadata fetch: an exception is caught
and leaves the id unset. -/
def userOf : Except Unit (Option String) → Option String
  | Except.error _ => none
  | Except.ok u => u

/-- Finalize handler `process_image_for_labels` of
`functions_cloud_event.py`.  Oracles: `parse` for
`datetime.datetime.fromisoformat`, `vision` for the label-detection call
(`Except.error` models a raised exception, which the handler catches),
`blobUser` for the blob metadata fetch of the owner id.  The outcome is
`Except.error ()` when an exception escapes the handler, otherwise the list
of store operations issued.  A missing `name` field raises
`AttributeError` at `file_name.endswith("/")`; a non-numeric truthy `size`
raises `ValueError` at `int(size)`; neither is caught. -/
def process_image_for_labels (parse : String → Option PyDateTime)
    (vision : Except Unit VisionResponse) (blobUser : Except Unit (Option String))
    (data : StorageEventData) : Except Unit (List Effect) :=
  match data.name with
  | none => Except.error ()
  | some file_name =>
    if pyEndsWith file_name "/" then Except.ok []
    else
      let labels_data : List LabelAnnotation :=
        match vision with
        | Except.error _ => []
        | Except.ok r => computeLabelsData r.labelAnnotations
      let visionErr : FSValue :=
        match vision with
        | Except.error _ => FSValue.null
        | Except.ok r =>
          if r.errorMessage.data.isEmpty then FSValue.null
          else FSValue.str r.errorMessage
      match sizeValue data.size with
      | Except.error _ => Except.error ()
      | Except.ok sizeInt =>
        Except.ok [Effect.setDoc (pyReplaceChar file_name '/' "_")
          (finalizeMetadata data.bucket file_name sizeInt labels_data visionErr
            (userOf blobUser) (parseTsFields parse data.timeCreated data.updated))
          true]

/-- The metadata dictionary built by the finalize handler of `main.py`
(lines 275-299): same fields as the newer revision but no `userId`
recovery. -/
def mainMetadata (bucket : Option String) (file_name : String) (sizeInt : Int)
    (labels_data : List LabelAnnotation) (visionErr : FSValue)
    (tsFields : List (String × FSValue)) : List (String × FSValue) :=
  [("bucket", bucketToVal bucket),
   ("fileName", FSValue.str file_name),
   ("imageUri", FSValue.str ("gs://" ++ bucketToStr bucket ++ "/" ++ file_name)),
   ("size", FSValue.int sizeInt),
   ("labels", FSValue.labelList labels_data),
   ("processedTimestamp", FSValue.serverTimestamp),
   ("visionApiError", visionErr)]
  ++ tsFields

/-- Finalize handler `process_image_for_labels` of `main.py` (lines
213-309).  Differences from the newer revision: no owner-id recovery, the
Firestore write is `doc_ref.set(metadata)` with no merge, and `response` is
only assigned inside the `try`, so a raised vision call leaves it unbound
and the later `visionApiError` expression raises `NameError` (uncaught). -/
def process_image_for_labels_main (parse : String → Option PyDateTime)
    (vision : Except Unit VisionResponse) (data : StorageEventData) :
    Except Unit (List Effect) :=
  match data.name with
  | none => Except.error ()
  | some file_name =>
    if pyEndsWith file_name "/" then Except.ok []
    else
      match vision with
      | Except.error _ => Except.error ()
      | Except.ok r =>
        match sizeValue data.size with
        | Except.error _ => Except.error ()
        | Except.ok sizeInt =>
          Except.ok [Effect.setDoc (pyReplaceChar file_name '/' "_")
            (mainMetadata data.bucket file_name sizeInt
              (computeLabelsData r.labelAnnotations)
              (if r.errorMessage.data.isEmpty then FSValue.null
               else FSValue.str r.errorMessage)
              (parseTsFields parse data.timeCreated data.updated))
            false]

/-- Delete handler `delete_image_metadata` of `functions_cloud_event.py`
(lines 140-186, identical in `main.py`): missing or empty bucket or name is
logged and ignored, a directory marker is skipped, otherwise the document
is deleted; every exception of the delete is caught, so the handler never
raises. -/
def delete_image_metadata (data : StorageEventData) : Except Unit (List Effect) :=
  if !pyTruthy data.bucket || !pyTruthy data.name then Except.ok []
  else
    let file_name := (data.name).getD ""
    if pyEndsWith file_name "/" then Except.ok []
    else Except.ok [Effect.deleteDoc (pyReplaceChar file_name '/' "_")]

/-- The configured mime allow-list, `config.py` lines 10-17. -/
def ALLOWED_IMAGE_TYPES : List String :=
  ["image/jpeg", "image/png", "image/bmp", "image/webp", "image/x-icon", "image/tiff"]

/-- The inline allow-list of the `main.py` upload variant (line 47). -/
def allowed_types_main : List String :=
  ["image/jpeg", "image/png", "image/gif"]

/-- The uploaded file part of a multipart request (werkzeug `FileStorage`):
the declared mime type and the client-supplied file name. -/
structure FilePart where
  filename : Option String
  mimetype : String

/-- Python truthiness of an optional Firestore value, as used by
`if not file_name or not bucket_name:` on fields read from a document. -/
def fsTruthy : Option FSValue → Bool
  | none => false
  | some (FSValue.str s) => !s.data.isEmpty
  | some (FSValue.int n) => !(n == 0)
  | some (FSValue.labelList l) => !l.isEmpty
  | some (FSValue.timestamp _) => true
  | some FSValue.serverTimestamp => true
  | some FSValue.null => false

/-- The expression `image_file.filename or "uploaded_file"`: a missing or
empty client file name falls back to the default. -/
def filenameOrDefault : Option String → String
  | none => "uploaded_file"
  | some s => if s.data.isEmpty then "uploaded_file" else s

/-- HTTP handler `upload_image` of `functions_http.py` (lines 68-151).
Oracles: `verify` for `auth.verify_id_token` plus the `uid` lookup
(`Except.error` models any exception there), `secure` for
`werkzeug.utils.secure_filename`, `nowStamp` for the timestamp text, and
`storageOk` for the `try` block around the blob upload and the stub
document write (a raised exception there is caught and answered with 500).
The result is the HTTP status together with the effects issued. -/
def upload_image (bucketEnv : String) (verify : String → Except Unit String)
    (secure : String → String) (nowStamp : String) (storageOk : Bool)
    (method : String) (authHeader : Option String) (imageFile : Option FilePart) :
    Nat × List Effect :=
  if method ≠ "POST" then (405, [])
  else if bucketEnv.data.isEmpty then (500, [])
  else
    match authHeader with
    | none => (401, [])
    | some h =>
      if !pyStartsWith h "Bearer " then (401, [])
      else
        match verify (pyAfterBearer h) with
        | Except.error _ => (401, [])
        | Except.ok user_id =>
          match imageFile with
          | none => (400, [])
          | some f =>
            if f.mimetype ∉ ALLOWED_IMAGE_TYPES then (415, [])
            else
              let dest := "uploads/" ++ nowStamp ++ "_" ++
                secure (filenameOrDefault f.filename)
              if !storageOk then (500, [])
              else
                (201, [Effect.uploadBlob bucketEnv dest,
                  Effect.setDoc (pyReplaceChar dest '/' "_")
                    [("bucket", FSValue.str bucketEnv),
                     ("fileName", FSValue.str dest),
                     ("imageUri", FSValue.str ("gs://" ++ bucketEnv ++ "/" ++ dest)),
                     ("userId", FSValue.str user_id),
                     ("uploadedTimestamp", FSValue.serverTimestamp)] false])

/-- HTTP handler `upload_image` of `main.py` (lines 24-76): no method or
credential check, an inline allow-list, and no metadata stub write. -/
def upload_image_main (bucketEnv : String) (secure : String → String)
    (nowStamp : String) (storageOk : Bool) (imageFile : Option FilePart) :
    Nat × List Effect :=
  if bucketEnv.data.isEmpty then (500, [])
  else
    match imageFile with
    | none => (400, [])
    | some f =>
      if f.mimetype ∉ allowed_types_main then (415, [])
      else
        let dest := "uploads/" ++ nowStamp ++ "_" ++
          secure (filenameOrDefault f.filename)
        if !storageOk then (500, [])
        else (201, [Effect.uploadBlob bucketEnv dest])

/-- HTTP handler `delete_image` of `functions_http.py` (lines 154-231).
Oracles: `verify` as in `upload_image`, `docs` for the Firestore document
store, `storageOk` for the storage calls inside the `try` (get_bucket and
blob operations; a raised exception is caught and answered with 500), and
`blobExists` for `blob.exists()`.  The handler deletes only the backing
object; the document is left to the storage-delete event handler (its own
docstring says so). -/
def delete_image (bucketEnv : String) (verify : String → Except Unit String)
    (docs : String → Option Doc) (storageOk : Bool)
    (blobExists : String → String → Bool)
    (method : String) (authHeader : Option String) (fileNameParam : Option String) :
    Nat × List Effect :=
  if method ≠ "DELETE" then (405, [])
  else if bucketEnv.data.isEmpty then (500, [])
  else
    match authHeader with
    | none => (401, [])
    | some h =>
      if !pyStartsWith h "Bearer " then (401, [])
      else
        match verify (pyAfterBearer h) with
        | Except.error _ => (401, [])
        | Except.ok user_id =>
          if !pyTruthy fileNameParam then (400, [])
          else
            let file_name := fileNameParam.getD ""
            let doc_id := pyReplaceChar file_name '/' "_"
            match docs doc_id with
            | none => (404, [])
            | some d =>
              if d "userId" ≠ some (FSValue.str user_id) then (403, [])
              else if !storageOk then (500, [])
              else if !blobExists bucketEnv file_name then (200, [])
              else (200, [Effect.deleteBlob bucketEnv file_name])

/-- HTTP handler `get_image_metadata` of `functions_http.py` (lines
314-380).  The handler reads the document named by the `docId` query
parameter and returns it with a freshly signed URL; a signing failure only
degrades the URL to null, so it does not change the status.  There is no
Authorization header handling and no ownership comparison anywhere in the
handler. -/
def get_image_metadata (docs : String → Option Doc) (docIdParam : Option String) :
    Nat × List Effect :=
  if !pyTruthy docIdParam then (400, [])
  else
    let doc_id := docIdParam.getD ""
    match docs doc_id with
    | none => (404, [])
    | some d =>
      if !fsTruthy (d "fileName") || !fsTruthy (d "bucket") then (500, [])
      else (200, [])

deriving instance DecidableEq for Except

/-- Oracle returning no parse result (every string fails to parse). -/
def parse0 : String → Option PyDateTime := fun _ => none

/-- Vision oracle: successful call, no annotations, no error. -/
def vision0 : Except Unit VisionResponse := Except.ok ⟨[], ""⟩

/-- Blob metadata oracle: the fetch raises (caught by the handler). -/
def blob0 : Except Unit (Option String) := Except.error ()

/-- A plain finalize payload for a stored object. -/
def data0 : StorageEventData :=
  ⟨some "b", some "uploads/a.jpg", none, none, none, none⟩

/-- A finalize payload whose `name` field is absent. -/
def dataNoName : StorageEventData :=
  ⟨some "b", none, none, none, none, none⟩

/-- A payload for a directory marker object. -/
def dataDir : StorageEventData :=
  ⟨some "b", some "uploads/", none, none, none, none⟩

/-- Claim C3 (code bug): on a payload without a `name` field the finalize
handler evaluates `file_name.endswith("/")` on `None` and the resulting
`AttributeError` escapes the handler boundary, contradicting the stated
error-handling design; the delete handler guards the same condition and
never raises. -/
theorem C3_code_bug_eval :
    process_image_for_labels parse0 vision0 blob0 dataNoName = Except.error ()
    ∧ delete_image_metadata dataNoName = Except.ok []
    ∧ ∀ d : StorageEventData, ∃ es, delete_image_metadata d = Except.ok es := by
  refine ⟨by decide, by decide, ?_⟩
  intro d
  unfold delete_image_metadata
  split
  · exact ⟨[], rfl⟩
  · rcases Bool.eq_false_or_eq_true (pyEndsWith (d.name.getD "") "/") with he | he
    · exact ⟨[], by simp [he]⟩
    · exact ⟨[Effect.deleteDoc (pyReplaceChar (d.name.getD "") '/' "_")], by simp [he]⟩

theorem pyEndsWith_slash_nonempty (fn : String) (h : pyEndsWith fn "/" = true) :
    fn.data.isEmpty = false := by
  cases hf : fn.data with
  | nil =>
    exfalso
    have h0 : List.isSuffixOf "/".data ([] : List Char) = false := by decide
    rw [pyEndsWith, hf, h0] at h
    simp at h
  | cons c cs => rfl

/-- Claim C8: a payload whose object path ends with the separator is a
no-op for both storage-triggered handlers: no document written, no document
deleted, no exception raised. -/
theorem C8_theorem (parse : String → Option PyDateTime)
    (vision : Except Unit VisionResponse) (blobUser : Except Unit (Option String))
    (data : StorageEventData) (fn : String)
    (hname : data.name = some fn) (hdir : pyEndsWith fn "/" = true) :
    process_image_for_labels parse vision blobUser data = Except.ok []
    ∧ delete_image_metadata data = Except.ok [] := by
  constructor
  · unfold process_image_for_labels
    rw [hname]
    simp [hdir]
  · unfold delete_image_metadata
    rw [hname]
    have hne : pyTruthy (some fn) = true := by
      simp [pyTruthy, pyEndsWith_slash_nonempty fn hdir]
    rcases Bool.eq_false_or_eq_true (pyTruthy data.bucket) with hb | hb
    · simp [hb, hne, hdir]
    · simp [hb, hne, hdir]

theorem C8_witness :
    dataDir.name = some "uploads/" ∧ pyEndsWith "uploads/" "/" = true
    ∧ (process_image_for_labels parse0 vision0 blob0 dataDir = Except.ok []
       ∧ delete_image_metadata dataDir = Except.ok []) :=
  ⟨rfl, by decide,
   C8_theorem parse0 vision0 blob0 dataDir "uploads/" rfl (by decide)⟩

/-- A stored document owned by the subject `alice`. -/
def docAlice : Doc := fun k =>
  if k = "userId" then some (FSValue.str "alice")
  else if k = "fileName" then some (FSValue.str "uploads/a.jpg")
  else if k = "bucket" then some (FSValue.str "b")
  else none

/-- Document store holding `docAlice` under the id `d1`. -/
def storeC2 : String → Option Doc := fun i => if i = "d1" then some docAlice else none

/-- Document store holding `docAlice` under the id derived from its path. -/
def storeDel : String → Option Doc :=
  fun i => if i = "uploads_a.jpg" then some docAlice else none

/-- Token verifier oracle that accepts every token as the subject `bob`. -/
def verifyBob : String → Except Unit String := fun _ => Except.ok "bob"

/-- Token verifier oracle that accepts every token as the subject `alice`. -/
def verifyAlice : String → Except Unit String := fun _ => Except.ok "alice"

/-- Claim C2 (counterexample): `get_image_metadata` performs no ownership
check at all — on a store whose only document is owned by `alice` it
answers 200 with the document, for any caller (the handler does not even
read the Authorization header), where the claim demands a forbidden
result. -/
theorem C2_counterexample :
    get_image_metadata storeC2 (some "d1") = (200, [])
    ∧ docAlice "userId" = some (FSValue.str "alice")
    ∧ (200 : Nat) ≠ 403 := by
  decide

/-- Claim C2 (amended): `delete_image` invoked by an authenticated subject
whose id differs from the `userId` of the document answers 403 and issues
no effect (no document or object mutation); `get_image_metadata` has no
ownership check and returns the document to any caller (see the
counterexample). -/
theorem C2_theorem (bucketEnv : String) (verify : String → Except Unit String)
    (docs : String → Option Doc) (storageOk : Bool)
    (blobExists : String → String → Bool)
    (hAuth : String) (fileNameParam : Option String) (uid : String) (d : Doc)
    (hb : bucketEnv.data.isEmpty = false)
    (hbear : pyStartsWith hAuth "Bearer " = true)
    (hver : verify (pyAfterBearer hAuth) = Except.ok uid)
    (hfn : pyTruthy fileNameParam = true)
    (hdoc : docs (pyReplaceChar (fileNameParam.getD "") '/' "_") = some d)
    (hown : d "userId" ≠ some (FSValue.str uid)) :
    delete_image bucketEnv verify docs storageOk blobExists
      "DELETE" (some hAuth) fileNameParam = (403, []) := by
  unfold delete_image
  simp [hb, hbear, hver, hfn, hdoc, hown]

theorem C2_witness :
    ("b" : String).data.isEmpty = false
    ∧ pyStartsWith "Bearer t" "Bearer " = true
    ∧ verifyBob (pyAfterBearer "Bearer t") = Except.ok "bob"
    ∧ pyTruthy (some "uploads/a.jpg") = true
    ∧ storeDel (pyReplaceChar ((some "uploads/a.jpg").getD "") '/' "_") = some docAlice
    ∧ docAlice "userId" ≠ some (FSValue.str "bob")
    ∧ delete_image "b" verifyBob storeDel true (fun _ _ => true)
        "DELETE" (some "Bearer t") (some "uploads/a.jpg") = (403, []) :=
  ⟨by decide, by decide, rfl, by decide, rfl, by decide,
   C2_theorem "b" verifyBob storeDel true (fun _ _ => true) "Bearer t"
     (some "uploads/a.jpg") "bob" docAlice (by decide) (by decide) rfl
     (by decide) rfl (by decide)⟩

/-- Claim C5 (counterexample): a delete by the owner answers 200 and
deletes the backing object, but issues no document deletion — the handler
leaves the document to the storage-delete event function, so the claim
that `delete_image` deletes the document is false at this input. -/
theorem C5_counterexample :
    delete_image "b" verifyAlice storeDel true (fun _ _ => true)
      "DELETE" (some "Bearer t") (some "uploads/a.jpg")
      = (200, [Effect.deleteBlob "b" "uploads/a.jpg"])
    ∧ Effect.deleteDoc "uploads_a.jpg" ∉
        (delete_image "b" verifyAlice storeDel true (fun _ _ => true)
          "DELETE" (some "Bearer t") (some "uploads/a.jpg")).2 := by
  decide

/-- Claim C5 (amended): a delete by the owner answers 200, deleting the
backing object when it exists and treating an already-absent object as
success; the handler itself never mutates the document store (document
removal is delegated to the storage-delete trigger), and with the object
already absent the same invocation again answers 200 with no effect. -/
theorem C5_theorem (bucketEnv : String) (verify : String → Except Unit String)
    (docs : String → Option Doc) (blobExists : String → String → Bool)
    (hAuth : String) (fileNameParam : Option String) (uid : String) (d : Doc)
    (hb : bucketEnv.data.isEmpty = false)
    (hbear : pyStartsWith hAuth "Bearer " = true)
    (hver : verify (pyAfterBearer hAuth) = Except.ok uid)
    (hfn : pyTruthy fileNameParam = true)
    (hdoc : docs (pyReplaceChar (fileNameParam.getD "") '/' "_") = some d)
    (hown : d "userId" = some (FSValue.str uid)) :
    (delete_image bucketEnv verify docs true blobExists
        "DELETE" (some hAuth) fileNameParam
      = (200, if blobExists bucketEnv (fileNameParam.getD "")
              then [Effect.deleteBlob bucketEnv (fileNameParam.getD "")] else []))
    ∧ (∀ e ∈ (delete_image bucketEnv verify docs true blobExists
          "DELETE" (some hAuth) fileNameParam).2,
        e = Effect.deleteBlob bucketEnv (fileNameParam.getD ""))
    ∧ delete_image bucketEnv verify docs true (fun _ _ => false)
        "DELETE" (some hAuth) fileNameParam = (200, []) := by
  have hrun : ∀ be : String → String → Bool,
      delete_image bucketEnv verify docs true be "DELETE" (some hAuth) fileNameParam
        = (200, if be bucketEnv (fileNameParam.getD "")
                then [Effect.deleteBlob bucketEnv (fileNameParam.getD "")] else []) := by
    intro be
    unfold delete_image
    rcases Bool.eq_false_or_eq_true (be bucketEnv (fileNameParam.getD "")) with hbe | hbe <;>
      simp [hb, hbear, hver, hfn, hdoc, hown, hbe]
  refine ⟨hrun blobExists, ?_, ?_⟩
  · rw [hrun blobExists]
    rcases Bool.eq_false_or_eq_true (blobExists bucketEnv (fileNameParam.getD "")) with hbe | hbe <;>
      simp [hbe]
  · rw [hrun (fun _ _ => false)]
    simp

theorem C5_witness :
    ("b" : String).data.isEmpty = false
    ∧ pyStartsWith "Bearer t" "Bearer " = true
    ∧ verifyAlice (pyAfterBearer "Bearer t") = Except.ok "alice"
    ∧ pyTruthy (some "uploads/a.jpg") = true
    ∧ storeDel (pyReplaceChar ((some "uploads/a.jpg").getD "") '/' "_") = some docAlice
    ∧ docAlice "userId" = some (FSValue.str "alice")
    ∧ ((delete_image "b" verifyAlice storeDel true (fun _ _ => true)
          "DELETE" (some "Bearer t") (some "uploads/a.jpg")
        = (200, if (fun _ _ => true : String → String → Bool) "b" ((some "uploads/a.jpg").getD "")
                then [Effect.deleteBlob "b" ((some "uploads/a.jpg").getD "")] else []))
      ∧ (∀ e ∈ (delete_image "b" verifyAlice storeDel true (fun _ _ => true)
            "DELETE" (some "Bearer t") (some "uploads/a.jpg")).2,
          e = Effect.deleteBlob "b" ((some "uploads/a.jpg").getD ""))
      ∧ delete_image "b" verifyAlice storeDel true (fun _ _ => false)
          "DELETE" (some "Bearer t") (some "uploads/a.jpg") = (200, [])) :=
  ⟨by decide, by decide, rfl, by decide, rfl, by decide,
   C5_theorem "b" verifyAlice storeDel (fun _ _ => true) "Bearer t"
     (some "uploads/a.jpg") "alice" docAlice (by decide) (by decide) rfl
     (by decide) rfl (by decide)⟩

/-- The status of an authenticated `upload_image` request that carries a
file: 415 outside the allow-list, otherwise 201 or 500 depending on the
storage outcome. -/
theorem upload_image_fst_eq (bucketEnv : String) (verify : String → Except Unit String)
    (secure : String → String) (nowStamp : String) (storageOk : Bool)
    (hAuth : String) (f : FilePart) (uid : String)
    (hb : bucketEnv.data.isEmpty = false)
    (hbear : pyStartsWith hAuth "Bearer " = true)
    (hver : verify (pyAfterBearer hAuth) = Except.ok uid) :
    (upload_image bucketEnv verify secure nowStamp storageOk
        "POST" (some hAuth) (some f)).1
      = if f.mimetype ∈ ALLOWED_IMAGE_TYPES
        then (if storageOk then 201 else 500) else 415 := by
  unfold upload_image
  rcases Bool.eq_false_or_eq_true storageOk with hok | hok <;>
    by_cases hm : f.mimetype ∈ ALLOWED_IMAGE_TYPES <;>
      simp [hb, hbear, hver, hm, hok]

/-- Claim C9: with a verified credential and a file present, the upload is
answered 415 exactly when the declared mime type is outside the configured
allow-list, and otherwise proceeds past the mime check (201 on storage
success, 500 on storage failure); `image/jpeg` is inside and
`application/pdf` is outside both the configured list and the inline list
of the `main.py` variant, whose handler satisfies the same property. -/
theorem C9_theorem (bucketEnv : String) (verify : String → Except Unit String)
    (secure : String → String) (nowStamp : String) (storageOk : Bool)
    (hAuth : String) (f : FilePart) (uid : String)
    (hb : bucketEnv.data.isEmpty = false)
    (hbear : pyStartsWith hAuth "Bearer " = true)
    (hver : verify (pyAfterBearer hAuth) = Except.ok uid) :
    ((upload_image bucketEnv verify secure nowStamp storageOk
        "POST" (some hAuth) (some f)).1 = 415
      ↔ f.mimetype ∉ ALLOWED_IMAGE_TYPES)
    ∧ (f.mimetype ∈ ALLOWED_IMAGE_TYPES →
        (upload_image bucketEnv verify secure nowStamp storageOk
          "POST" (some hAuth) (some f)).1 = 201
        ∨ (upload_image bucketEnv verify secure nowStamp storageOk
            "POST" (some hAuth) (some f)).1 = 500)
    ∧ ("image/jpeg" ∈ ALLOWED_IMAGE_TYPES ∧ "application/pdf" ∉ ALLOWED_IMAGE_TYPES)
    ∧ ("image/jpeg" ∈ allowed_types_main ∧ "application/pdf" ∉ allowed_types_main)
    ∧ (∀ g : FilePart, ∀ benv2 : String, ∀ sec2 : String → String,
        ∀ ts2 : String, ∀ ok2 : Bool, benv2.data.isEmpty = false →
        ((upload_image_main benv2 sec2 ts2 ok2 (some g)).1 = 415
          ↔ g.mimetype ∉ allowed_types_main)) := by
  rw [upload_image_fst_eq bucketEnv verify secure nowStamp storageOk hAuth f uid hb hbear hver]
  refine ⟨?_, ?_, by decide, by decide, ?_⟩
  · by_cases hm : f.mimetype ∈ ALLOWED_IMAGE_TYPES
    · rcases Bool.eq_false_or_eq_true storageOk with hok | hok <;> simp [hm, hok]
    · simp [hm]
  · intro hm
    rcases Bool.eq_false_or_eq_true storageOk with hok | hok <;> simp [hm, hok]
  · intro g benv2 sec2 ts2 ok2 hb2
    have hrun : (upload_image_main benv2 sec2 ts2 ok2 (some g)).1
        = if g.mimetype ∈ allowed_types_main
          then (if ok2 then 201 else 500) else 415 := by
      unfold upload_image_main
      rcases Bool.eq_false_or_eq_true ok2 with hok | hok <;>
        by_cases hm : g.mimetype ∈ allowed_types_main <;>
          simp [hb2, hm, hok]
    rw [hrun]
    by_cases hm : g.mimetype ∈ allowed_types_main
    · rcases Bool.eq_false_or_eq_true ok2 with hok | hok <;> simp [hm, hok]
    · simp [hm]

theorem C9_witness :
    ("b" : String).data.isEmpty = false
    ∧ pyStartsWith "Bearer t" "Bearer " = true
    ∧ verifyBob (pyAfterBearer "Bearer t") = Except.ok "bob"
    ∧ (((upload_image "b" verifyBob (fun s => s) "20250101000000" true
          "POST" (some "Bearer t") (some ⟨some "a.jpg", "image/jpeg"⟩)).1 = 415
        ↔ FilePart.mimetype ⟨some "a.jpg", "image/jpeg"⟩ ∉ ALLOWED_IMAGE_TYPES)
      ∧ (FilePart.mimetype ⟨some "a.jpg", "image/jpeg"⟩ ∈ ALLOWED_IMAGE_TYPES →
          (upload_image "b" verifyBob (fun s => s) "20250101000000" true
            "POST" (some "Bearer t") (some ⟨some "a.jpg", "image/jpeg"⟩)).1 = 201
          ∨ (upload_image "b" verifyBob (fun s => s) "20250101000000" true
              "POST" (some "Bearer t") (some ⟨some "a.jpg", "image/jpeg"⟩)).1 = 500)
      ∧ ("image/jpeg" ∈ ALLOWED_IMAGE_TYPES ∧ "application/pdf" ∉ ALLOWED_IMAGE_TYPES)
      ∧ ("image/jpeg" ∈ allowed_types_main ∧ "application/pdf" ∉ allowed_types_main)
      ∧ (∀ g : FilePart, ∀ benv2 : String, ∀ sec2 : String → String,
          ∀ ts2 : String, ∀ ok2 : Bool, benv2.data.isEmpty = false →
          ((upload_image_main benv2 sec2 ts2 ok2 (some g)).1 = 415
            ↔ g.mimetype ∉ allowed_types_main))) :=
  ⟨by decide, by decide, rfl,
   C9_theorem "b" verifyBob (fun s => s) "20250101000000" true "Bearer t"
     ⟨some "a.jpg", "image/jpeg"⟩ "bob" (by decide) (by decide) rfl⟩

/-- Failed authentication of an upload request: the Authorization header is
missing, does not carry the bearer scheme, or its token fails
verification. -/
def authBad (verify : String → Except Unit String) : Option String → Prop
  | none => True
  | some h => pyStartsWith h "Bearer " = false
      ∨ verify (pyAfterBearer h) = Except.error ()

/-- Claim C10: on a POST upload request whose credential is missing,
malformed, or fails verification, the handler answers 401 before the file
payload and mime type are inspected — the result is 401 with no effect for
every file part, including a missing field or a disallowed mime type. -/
theorem C10_theorem (bucketEnv : String) (verify : String → Except Unit String)
    (secure : String → String) (nowStamp : String) (storageOk : Bool)
    (authHeader : Option String) (imageFile : Option FilePart)
    (hb : bucketEnv.data.isEmpty = false)
    (hbad : authBad verify authHeader) :
    upload_image bucketEnv verify secure nowStamp storageOk
      "POST" authHeader imageFile = (401, []) := by
  unfold upload_image
  cases authHeader with
  | none => simp [hb]
  | some h =>
    rcases hbad with hs | hv
    · simp [hb, hs]
    · rcases Bool.eq_false_or_eq_true (pyStartsWith h "Bearer ") with hs | hs
      · simp [hb, hs, hv]
      · simp [hb, hs, hv]

theorem C10_witness :
    ("b" : String).data.isEmpty = false
    ∧ authBad verifyBob (some "Token abc")
    ∧ upload_image "b" verifyBob (fun s => s) "20250101000000" true
        "POST" (some "Token abc") (some ⟨some "a.pdf", "application/pdf"⟩)
      = (401, []) :=
  ⟨by decide, Or.inl (by decide),
   C10_theorem "b" verifyBob (fun s => s) "20250101000000" true
     (some "Token abc") (some ⟨some "a.pdf", "application/pdf"⟩)
     (by decide) (Or.inl (by decide))⟩

/-- The field names the finalize pass of `functions_cloud_event.py` may
write: the literal dictionary keys, `userId` when resolved, and the two
parsed timestamps. -/
def enrichmentKeys : List String :=
  ["bucket", "fileName", "imageUri", "size", "labels", "processedTimestamp",
   "visionApiError", "userId", "timeCreated", "updated"]

theorem parseTsFields_keys (parse : String → Option PyDateTime)
    (tc up : Option String) :
    ∀ kv ∈ parseTsFields parse tc up,
      kv.1 = "timeCreated" ∨ kv.1 = "updated" := by
  intro kv hkv
  unfold parseTsFields at hkv
  split at hkv
  · split at hkv
    · simp at hkv
    · split at hkv
      · split at hkv
        · simp at hkv
          rw [hkv]
          exact Or.inl rfl
        · simp at hkv
          rcases hkv with h | h
          · rw [h]; exact Or.inl rfl
          · rw [h]; exact Or.inr rfl
      · simp at hkv
        rw [hkv]
        exact Or.inl rfl
  · split at hkv
    · split at hkv
      · simp at hkv
      · simp at hkv
        rw [hkv]
        exact Or.inr rfl
    · simp at hkv

theorem finalizeMetadata_keys (b : Option String) (fn : String) (sz : Int)
    (ld : List LabelAnnotation) (ve : FSValue) (u : Option String)
    (ts : List (String × FSValue))
    (hts : ∀ kv ∈ ts, kv.1 = "timeCreated" ∨ kv.1 = "updated") :
    ∀ kv ∈ finalizeMetadata b fn sz ld ve u ts, kv.1 ∈ enrichmentKeys := by
  intro kv hkv
  unfold finalizeMetadata at hkv
  simp only [List.append_assoc, List.mem_append] at hkv
  rcases hkv with hlit | hopt | hts2
  · fin_cases hlit <;> simp [enrichmentKeys]
  · cases u with
    | none => simp at hopt
    | some uu =>
      rcases Bool.eq_false_or_eq_true uu.data.isEmpty with he | he
      · simp [he] at hopt
      · simp [he] at hopt
        rw [hopt]
        simp [enrichmentKeys]
  · rcases hts kv hts2 with h | h <;> rw [h] <;> decide

theorem lookupField_eq_none (fields : List (String × FSValue)) (k : String)
    (h : ∀ kv ∈ fields, ¬ kv.1 = k) :
    lookupField fields k = none := by
  unfold lookupField
  rw [List.find?_eq_none.mpr]
  · rfl
  · intro kv hkv
    simp only [beq_iff_eq]
    exact h kv hkv

/-- Merging the finalize metadata into a document never touches a field
outside the computed key set. -/
theorem applySet_merge_frame (b : Option String) (fn : String) (sz : Int)
    (ld : List LabelAnnotation) (ve : FSValue) (u : Option String)
    (parse : String → Option PyDateTime) (tc up : Option String)
    (d : Doc) (k : String) (hk : k ∉ enrichmentKeys) :
    applySet d (finalizeMetadata b fn sz ld ve u (parseTsFields parse tc up)) true k
      = d k := by
  have hnone : lookupField
      (finalizeMetadata b fn sz ld ve u (parseTsFields parse tc up)) k = none := by
    apply lookupField_eq_none
    intro kv hkv he
    exact hk (he ▸ finalizeMetadata_keys b fn sz ld ve u _
      (parseTsFields_keys parse tc up) kv hkv)
  unfold applySet
  rw [hnone]
  simp

/-- Claim C1 (amended): every write issued by the finalize handler of
`functions_cloud_event.py` is a merge (`set` with `merge=True`) whose keys
all lie in the computed set, so any pre-existing field outside that set is
preserved unchanged; the `main.py` variant instead replaces the document
wholesale (see the counterexample). -/
theorem C1_theorem (parse : String → Option PyDateTime)
    (vision : Except Unit VisionResponse) (blobUser : Except Unit (Option String))
    (data : StorageEventData) (i : String) (fields : List (String × FSValue))
    (h : process_image_for_labels parse vision blobUser data
      = Except.ok [Effect.setDoc i fields true])
    (d : Doc) (k : String) (hk : k ∉ enrichmentKeys) :
    applySet d fields true k = d k := by
  unfold process_image_for_labels at h
  cases hn : data.name with
  | none => rw [hn] at h; exact absurd h (by simp)
  | some fn =>
    rw [hn] at h
    cases hdir : pyEndsWith fn "/" with
    | true => simp [hdir] at h
    | false =>
      simp only [hdir, Bool.false_eq_true, if_false] at h
      cases hsv : sizeValue data.size with
      | error e =>
        simp only [hsv] at h
        exact (Except.noConfusion h)
      | ok n =>
        simp only [hsv, Except.ok.injEq, List.cons.injEq, Effect.setDoc.injEq,
          and_true] at h
        obtain ⟨hi, hf⟩ := h
        rw [← hf]
        exact applySet_merge_frame data.bucket fn n _ _ (userOf blobUser)
          parse data.timeCreated data.updated d k hk

/-- The metadata the finalize handler of `functions_cloud_event.py` writes
for `data0` with no annotations, no owner id and no timestamps. -/
def fields0 : List (String × FSValue) :=
  finalizeMetadata (some "b") "uploads/a.jpg" 0 [] FSValue.null none []

/-- The metadata the `main.py` finalize variant writes for `data0`. -/
def fieldsMain0 : List (String × FSValue) :=
  mainMetadata (some "b") "uploads/a.jpg" 0 [] FSValue.null []

/-- A pre-existing document carrying a field outside the enrichment key
set. -/
def d0 : Doc := fun k => if k = "ocrText" then some (FSValue.str "hello") else none

theorem C1_witness :
    process_image_for_labels parse0 vision0 blob0 data0
      = Except.ok [Effect.setDoc "uploads_a.jpg" fields0 true]
    ∧ "ocrText" ∉ enrichmentKeys
    ∧ applySet d0 fields0 true "ocrText" = d0 "ocrText" :=
  ⟨by decide, by decide,
   C1_theorem parse0 vision0 blob0 data0 "uploads_a.jpg" fields0 (by decide)
     d0 "ocrText" (by decide)⟩

/-- Claim C1 (counterexample): the `main.py` finalize variant, cited by the
claim, writes with `doc_ref.set(metadata)` and no merge flag — applying its
write to a document holding the unrelated field `ocrText` erases that
field, so the claim that every enrichment write preserves pre-existing
unrelated fields is false on that handler. -/
theorem C1_counterexample :
    process_image_for_labels_main parse0 vision0 data0
      = Except.ok [Effect.setDoc "uploads_a.jpg" fieldsMain0 false]
    ∧ d0 "ocrText" = some (FSValue.str "hello")
    ∧ applySet d0 fieldsMain0 false "ocrText" = none := by
  decide

/-- A parse oracle accepting exactly one normalized RFC3339 string. -/
def parseQ : String → Option PyDateTime :=
  fun x => if x = "2025-01-01T00:00:00+00:00" then some ⟨1⟩ else none

/-- A finalize payload with an unparsable `timeCreated` and a well-formed
`updated`. -/
def dataTs : StorageEventData :=
  ⟨some "b", some "a.jpg", none, some "BAD", some "2025-01-01T00:00:00Z", none⟩

/-- Claim C7 (counterexample): with an unparsable `timeCreated` and an
`updated` string that parses fine after the `Z` normalization, the shared
`try` block omits BOTH fields — the `ValueError` of the first parse skips
the second assignment — so the claim that only the failing field is
omitted is false at this input. -/
theorem C7_counterexample :
    parseQ (pyReplaceChar "2025-01-01T00:00:00Z" 'Z' "+00:00") = some ⟨1⟩
    ∧ parseQ (pyReplaceChar "BAD" 'Z' "+00:00") = none
    ∧ parseTsFields parseQ (some "BAD") (some "2025-01-01T00:00:00Z") = []
    ∧ process_image_for_labels parseQ vision0 blob0 dataTs
        = Except.ok [Effect.setDoc "a.jpg"
            (finalizeMetadata (some "b") "a.jpg" 0 [] FSValue.null none []) true] := by
  decide

/-- Claim C7 (amended): each of the `timeCreated` and `updated` fields is
parsed as RFC3339 after replacing `Z` with `+00:00`; a parse failure of
`updated` omits only `updated`, but a parse failure of `timeCreated` omits
both fields, because both parses share one `try` block; in every case the
metadata write still proceeds. -/
theorem C7_theorem (parse : String → Option PyDateTime) (sc up : String)
    (hsc : sc.data.isEmpty = false) (hup : up.data.isEmpty = false) :
    (parse (pyReplaceChar sc 'Z' "+00:00") = none →
      parseTsFields parse (some sc) (some up) = [])
    ∧ (∀ d1, parse (pyReplaceChar sc 'Z' "+00:00") = some d1 →
        parse (pyReplaceChar up 'Z' "+00:00") = none →
        parseTsFields parse (some sc) (some up)
          = [("timeCreated", FSValue.timestamp d1)])
    ∧ (∀ d1 d2, parse (pyReplaceChar sc 'Z' "+00:00") = some d1 →
        parse (pyReplaceChar up 'Z' "+00:00") = some d2 →
        parseTsFields parse (some sc) (some up)
          = [("timeCreated", FSValue.timestamp d1),
             ("updated", FSValue.timestamp d2)])
    ∧ (∀ (vision : Except Unit VisionResponse)
        (blobUser : Except Unit (Option String))
        (bucket metagen size : Option String) (fn : String) (n : Int),
        pyEndsWith fn "/" = false → sizeValue size = Except.ok n →
        ∃ fields, process_image_for_labels parse vision blobUser
            ⟨bucket, some fn, metagen, some sc, some up, size⟩
          = Except.ok [Effect.setDoc (pyReplaceChar fn '/' "_") fields true]) := by
  have htr : pyTruthy (some sc) = true := by simp [pyTruthy, hsc]
  have htu : pyTruthy (some up) = true := by simp [pyTruthy, hup]
  refine ⟨?_, ?_, ?_, ?_⟩
  · intro hfail
    unfold parseTsFields
    simp [htr, hfail]
  · intro d1 hok hfail
    unfold parseTsFields
    simp [htr, htu, hok, hfail]
  · intro d1 d2 hok1 hok2
    unfold parseTsFields
    simp [htr, htu, hok1, hok2]
  · intro vision blobUser bucket metagen size fn n hdir hsz
    have hrun : process_image_for_labels parse vision blobUser
        ⟨bucket, some fn, metagen, some sc, some up, size⟩
        = Except.ok [Effect.setDoc (pyReplaceChar fn '/' "_")
            (finalizeMetadata bucket fn n
              (match vision with
               | Except.error _ => []
               | Except.ok r => computeLabelsData r.labelAnnotations)
              (match vision with
               | Except.error _ => FSValue.null
               | Except.ok r =>
                 if r.errorMessage.data.isEmpty = true then FSValue.null
                 else FSValue.str r.errorMessage)
              (userOf blobUser)
              (parseTsFields parse (some sc) (some up))) true] := by
      unfold process_image_for_labels
      simp only [hdir, Bool.false_eq_true, if_false, hsz]
    exact ⟨_, hrun⟩

theorem C7_witness :
    ("BAD" : String).data.isEmpty = false
    ∧ ("2025-01-01T00:00:00Z" : String).data.isEmpty = false
    ∧ parseTsFields parseQ (some "BAD") (some "2025-01-01T00:00:00Z") = [] :=
  ⟨by decide, by decide,
   (C7_theorem parseQ "BAD" "2025-01-01T00:00:00Z" (by decide) (by decide)).1
     (by decide)⟩

theorem lookupField_finalize_labels (b : Option String) (fn : String) (sz : Int)
    (ld : List LabelAnnotation) (ve : FSValue) (u : Option String)
    (ts : List (String × FSValue)) :
    lookupField (finalizeMetadata b fn sz ld ve u ts) "labels"
      = some (FSValue.labelList ld) := by
  simp [finalizeMetadata, lookupField]

theorem lookupField_finalize_visionErr (b : Option String) (fn : String) (sz : Int)
    (ld : List LabelAnnotation) (ve : FSValue) (u : Option String)
    (ts : List (String × FSValue)) :
    lookupField (finalizeMetadata b fn sz ld ve u ts) "visionApiError" = some ve := by
  simp [finalizeMetadata, lookupField]

/-- Claim C6 (amended): a failing vision call never aborts the metadata
write of the finalize handler.  When the call raises, the handler persists
an empty label list and a null `visionApiError` (the message is only
logged, not recorded); when the call returns a response carrying a
non-empty error message, that message is recorded in `visionApiError` and
the ranked top-4 of whatever annotations accompany the response are
persisted (an empty list in the usual case of no annotations).  In every
case the write to the document store is issued. -/
theorem C6_theorem (parse : String → Option PyDateTime)
    (blobUser : Except Unit (Option String)) (data : StorageEventData)
    (fn : String) (n : Int)
    (hname : data.name = some fn) (hdir : pyEndsWith fn "/" = false)
    (hsz : sizeValue data.size = Except.ok n) :
    (process_image_for_labels parse (Except.error ()) blobUser data
      = Except.ok [Effect.setDoc (pyReplaceChar fn '/' "_")
          (finalizeMetadata data.bucket fn n [] FSValue.null (userOf blobUser)
            (parseTsFields parse data.timeCreated data.updated)) true])
    ∧ (∀ ts0 : List (String × FSValue),
        lookupField (finalizeMetadata data.bucket fn n [] FSValue.null
          (userOf blobUser) ts0) "labels" = some (FSValue.labelList [])
        ∧ lookupField (finalizeMetadata data.bucket fn n [] FSValue.null
            (userOf blobUser) ts0) "visionApiError" = some FSValue.null)
    ∧ (∀ r : VisionResponse,
        process_image_for_labels parse (Except.ok r) blobUser data
          = Except.ok [Effect.setDoc (pyReplaceChar fn '/' "_")
              (finalizeMetadata data.bucket fn n
                (computeLabelsData r.labelAnnotations)
                (if r.errorMessage.data.isEmpty = true then FSValue.null
                 else FSValue.str r.errorMessage)
                (userOf blobUser)
                (parseTsFields parse data.timeCreated data.updated)) true])
    ∧ (∀ r : VisionResponse, ∀ ts0 : List (String × FSValue),
        lookupField (finalizeMetadata data.bucket fn n
          (computeLabelsData r.labelAnnotations)
          (if r.errorMessage.data.isEmpty = true then FSValue.null
           else FSValue.str r.errorMessage)
          (userOf blobUser) ts0) "labels"
          = some (FSValue.labelList (computeLabelsData r.labelAnnotations))
        ∧ lookupField (finalizeMetadata data.bucket fn n
            (computeLabelsData r.labelAnnotations)
            (if r.errorMessage.data.isEmpty = true then FSValue.null
             else FSValue.str r.errorMessage)
            (userOf blobUser) ts0) "visionApiError"
            = some (if r.errorMessage.data.isEmpty = true then FSValue.null
                    else FSValue.str r.errorMessage)) := by
  refine ⟨?_, ?_, ?_, ?_⟩
  · unfold process_image_for_labels
    rw [hname]
    simp only [hdir, Bool.false_eq_true, if_false, hsz]
  · intro ts0
    exact ⟨lookupField_finalize_labels _ _ _ _ _ _ _,
           lookupField_finalize_visionErr _ _ _ _ _ _ _⟩
  · intro r
    unfold process_image_for_labels
    rw [hname]
    simp only [hdir, Bool.false_eq_true, if_false, hsz]
  · intro r ts0
    exact ⟨lookupField_finalize_labels _ _ _ _ _ _ _,
           lookupField_finalize_visionErr _ _ _ _ _ _ _⟩

/-- Claim C6 (counterexample): when the vision call raises, the handler
catches the exception and still writes, but `visionApiError` is null — the
error is not recorded in the document, so the claim that a vision failure
records the error in `visionApiError` is false at this input. -/
theorem C6_counterexample :
    process_image_for_labels parse0 (Except.error ()) blob0 data0
      = Except.ok [Effect.setDoc "uploads_a.jpg" fields0 true]
    ∧ lookupField fields0 "visionApiError" = some FSValue.null
    ∧ some FSValue.null ≠ some (FSValue.str "boom") := by
  decide

theorem C6_witness :
    data0.name = some "uploads/a.jpg"
    ∧ pyEndsWith "uploads/a.jpg" "/" = false
    ∧ sizeValue data0.size = Except.ok 0
    ∧ process_image_for_labels parse0 (Except.error ()) blob0 data0
        = Except.ok [Effect.setDoc (pyReplaceChar "uploads/a.jpg" '/' "_")
            (finalizeMetadata data0.bucket "uploads/a.jpg" 0 [] FSValue.null
              (userOf blob0)
              (parseTsFields parse0 data0.timeCreated data0.updated)) true] :=
  ⟨rfl, by decide, by decide,
   (C6_theorem parse0 blob0 data0 "uploads/a.jpg" 0 rfl (by decide) (by decide)).1⟩
